import Mathlib

/-!
Verification of the InputPlumber report decode/diff engine and the
hysteresis-based analog-to-digital adapter, as a shallow embedding of
`src/drivers/lego/driver.rs`, `src/input/target/dbus.rs` and
`src/input/source/hidraw/opineo.rs`.
-/

set_option maxHeartbeats 1000000

namespace Lego

/-! ## Data model of `src/drivers/lego/driver.rs` -/

def DINPUT_PACKET_SIZE : Nat := 13
def XINPUT_PACKET_SIZE : Nat := 60
def KEYBOARD_PACKET_SIZE : Nat := 15
def MOUSE_PACKET_SIZE : Nat := 8
def TOUCHPAD_PACKET_SIZE : Nat := 21

def DINPUTLEFT_DATA : Nat := 0x07
def DINPUTRIGHT_DATA : Nat := 0x08
def KEYBOARD_TOUCH_DATA : Nat := 0x01
def MOUSEFPS_DATA : Nat := 0x02
def MOUSE_DATA : Nat := 0x09
def XINPUT_DATA : Nat := 0x04

/-- Modelled from the spec: `hid_report.rs` is not under `src/`; the decoded
XInput report is a plain record of the named fields that `translate_xinput`
reads (boolean button flags, unsigned stick/touch/trigger axes, accelerometer
samples). -/
structure XInputDataReport where
  a : Bool
  x : Bool
  b : Bool
  y : Bool
  menu : Bool
  view : Bool
  legion : Bool
  quick_access : Bool
  down : Bool
  up : Bool
  left : Bool
  right : Bool
  lb : Bool
  rb : Bool
  d_trigger_l : Bool
  d_trigger_r : Bool
  m2 : Bool
  m3 : Bool
  y1 : Bool
  y2 : Bool
  y3 : Bool
  mouse_click : Bool
  thumb_l : Bool
  thumb_r : Bool
  touch_x : Nat
  touch_y : Nat
  l_stick_x : Nat
  l_stick_y : Nat
  r_stick_x : Nat
  r_stick_y : Nat
  a_trigger_l : Nat
  a_trigger_r : Nat
  mouse_z : Nat
  left_accel_0 : Int
  left_accel_1 : Int
  right_accel_0 : Int
  right_accel_1 : Int
  deriving DecidableEq, Repr, Inhabited

/-- Modelled from the spec: `hid_report.rs` is not under `src/`; the DInput
left report's fields are never read by `translate_dinputl`, so it is kept as
the raw decoded payload. -/
structure DInputDataLeftReport where
  bytes : List Nat
  deriving DecidableEq, Repr, Inhabited

/-- Modelled from the spec: `hid_report.rs` is not under `src/`; fields never
read by `translate_dinputr`. -/
structure DInputDataRightReport where
  bytes : List Nat
  deriving DecidableEq, Repr, Inhabited

/-- Modelled from the spec: `hid_report.rs` is not under `src/`; fields never
read by `translate_keyboard`. -/
structure KeyboardDataReport where
  bytes : List Nat
  deriving DecidableEq, Repr, Inhabited

/-- Modelled from the spec: `hid_report.rs` is not under `src/`; fields never
read by `translate_mouse`. -/
structure MouseDataReport where
  bytes : List Nat
  deriving DecidableEq, Repr, Inhabited

/-- Modelled from the spec: `hid_report.rs` is not under `src/`; fields never
read by `translate_touch`. -/
structure TouchpadDataReport where
  bytes : List Nat
  deriving DecidableEq, Repr, Inhabited

/-! Event types of `src/drivers/lego/event.rs` as used by `driver.rs`. -/

structure BinaryInput where
  pressed : Bool
  deriving DecidableEq, Repr

structure TouchAxisInput where
  x : Nat
  y : Nat
  deriving DecidableEq, Repr

structure JoyAxisInput where
  x : Nat
  y : Nat
  deriving DecidableEq, Repr

structure TriggerInput where
  value : Nat
  deriving DecidableEq, Repr

structure AccelerometerInput where
  x : Int
  y : Int
  deriving DecidableEq, Repr

inductive ButtonEvent where
  | A (i : BinaryInput)
  | X (i : BinaryInput)
  | B (i : BinaryInput)
  | Y (i : BinaryInput)
  | Menu (i : BinaryInput)
  | View (i : BinaryInput)
  | Legion (i : BinaryInput)
  | QuickAccess (i : BinaryInput)
  | DPadDown (i : BinaryInput)
  | DPadUp (i : BinaryInput)
  | DPadLeft (i : BinaryInput)
  | DPadRight (i : BinaryInput)
  | LB (i : BinaryInput)
  | RB (i : BinaryInput)
  | DTriggerL (i : BinaryInput)
  | DTriggerR (i : BinaryInput)
  | M2 (i : BinaryInput)
  | M3 (i : BinaryInput)
  | Y1 (i : BinaryInput)
  | Y2 (i : BinaryInput)
  | Y3 (i : BinaryInput)
  | MouseClick (i : BinaryInput)
  | ThumbL (i : BinaryInput)
  | ThumbR (i : BinaryInput)
  deriving DecidableEq, Repr

inductive AxisEvent where
  | Touchpad (i : TouchAxisInput)
  | LStick (i : JoyAxisInput)
  | RStick (i : JoyAxisInput)
  deriving DecidableEq, Repr

inductive TriggerEvent where
  | ATriggerL (i : TriggerInput)
  | ATriggerR (i : TriggerInput)
  | MouseWheel (i : TriggerInput)
  deriving DecidableEq, Repr

inductive AccelerometerEvent where
  | LeftAccelerometer (i : AccelerometerInput)
  | RightAccelerometer (i : AccelerometerInput)
  deriving DecidableEq, Repr

inductive Event where
  | Button (e : ButtonEvent)
  | Axis (e : AxisEvent)
  | Trigger (e : TriggerEvent)
  | Accelerometer (e : AccelerometerEvent)
  deriving DecidableEq, Repr

/-- The per-family `Option` state slots owned by one `Driver` instance. -/
structure DriverState where
  dinputl_state : Option DInputDataLeftReport
  dinputr_state : Option DInputDataRightReport
  keyboard_state : Option KeyboardDataReport
  mouse_state : Option MouseDataReport
  touchpad_state : Option TouchpadDataReport
  xinput_state : Option XInputDataReport
  deriving DecidableEq, Repr, Inhabited

/-! ## Translate functions (`driver.rs` lines 210-613)

In Rust each `translate_*` is a method reading the freshly updated state slot
of `self` and taking the previous slot value; the embedding passes both
explicitly. -/

/-- `translate_dinputl`: returns an empty event list (the body of
`if let Some(old_state)` is empty). -/
def translate_dinputl (st old_state : Option DInputDataLeftReport) : List Event :=
  match st, old_state with
  | none, _ => []
  | some _, none => []
  | some _, some _ => []

/-- `translate_dinputr`: returns an empty event list. -/
def translate_dinputr (st old_state : Option DInputDataRightReport) : List Event :=
  match st, old_state with
  | none, _ => []
  | some _, none => []
  | some _, some _ => []

/-- `translate_keyboard`: returns an empty event list. -/
def translate_keyboard (st old_state : Option KeyboardDataReport) : List Event :=
  match st, old_state with
  | none, _ => []
  | some _, none => []
  | some _, some _ => []

/-- `translate_mouse`: returns an empty event list. -/
def translate_mouse (st old_state : Option MouseDataReport) : List Event :=
  match st, old_state with
  | none, _ => []
  | some _, none => []
  | some _, some _ => []

/-- `translate_touch`: returns an empty event list. -/
def translate_touch (st old_state : Option TouchpadDataReport) : List Event :=
  match st, old_state with
  | none, _ => []
  | some _, none => []
  | some _, some _ => []

/-- One conditional `events.push(...)` of the diff block: the singleton when
the field changed, nothing otherwise. -/
def diffButton (changed : Prop) [Decidable changed] (ev : Event) : List Event :=
  if changed then [ev] else []

/-- `translate_xinput` (`driver.rs` lines 427-613): diff the previous report
against the current one, pushing events in the source's order: buttons in
declaration order, then paired axes, then triggers, then the two
accelerometer samples (pushed unconditionally, inside the
`if let Some(old_state)` block). -/
def translate_xinput (st old_state : Option XInputDataReport) : List Event :=
  match st with
  | none => []
  | some state =>
    match old_state with
    | none => []
    | some old =>
      diffButton (state.a ≠ old.a) (Event.Button (ButtonEvent.A ⟨state.a⟩)) ++
      diffButton (state.x ≠ old.x) (Event.Button (ButtonEvent.X ⟨state.x⟩)) ++
      diffButton (state.b ≠ old.b) (Event.Button (ButtonEvent.B ⟨state.b⟩)) ++
      diffButton (state.y ≠ old.y) (Event.Button (ButtonEvent.Y ⟨state.y⟩)) ++
      diffButton (state.menu ≠ old.menu) (Event.Button (ButtonEvent.Menu ⟨state.menu⟩)) ++
      diffButton (state.view ≠ old.view) (Event.Button (ButtonEvent.View ⟨state.view⟩)) ++
      diffButton (state.legion ≠ old.legion) (Event.Button (ButtonEvent.Legion ⟨state.legion⟩)) ++
      diffButton (state.quick_access ≠ old.quick_access)
        (Event.Button (ButtonEvent.QuickAccess ⟨state.quick_access⟩)) ++
      diffButton (state.down ≠ old.down) (Event.Button (ButtonEvent.DPadDown ⟨state.down⟩)) ++
      diffButton (state.up ≠ old.up) (Event.Button (ButtonEvent.DPadUp ⟨state.up⟩)) ++
      diffButton (state.left ≠ old.left) (Event.Button (ButtonEvent.DPadLeft ⟨state.left⟩)) ++
      diffButton (state.right ≠ old.right) (Event.Button (ButtonEvent.DPadRight ⟨state.right⟩)) ++
      diffButton (state.lb ≠ old.lb) (Event.Button (ButtonEvent.LB ⟨state.lb⟩)) ++
      diffButton (state.rb ≠ old.rb) (Event.Button (ButtonEvent.RB ⟨state.rb⟩)) ++
      diffButton (state.d_trigger_l ≠ old.d_trigger_l)
        (Event.Button (ButtonEvent.DTriggerL ⟨state.d_trigger_l⟩)) ++
      diffButton (state.d_trigger_r ≠ old.d_trigger_r)
        (Event.Button (ButtonEvent.DTriggerR ⟨state.d_trigger_r⟩)) ++
      diffButton (state.m2 ≠ old.m2) (Event.Button (ButtonEvent.M2 ⟨state.m2⟩)) ++
      diffButton (state.m3 ≠ old.m3) (Event.Button (ButtonEvent.M3 ⟨state.m3⟩)) ++
      diffButton (state.y1 ≠ old.y1) (Event.Button (ButtonEvent.Y1 ⟨state.y1⟩)) ++
      diffButton (state.y2 ≠ old.y2) (Event.Button (ButtonEvent.Y2 ⟨state.y2⟩)) ++
      diffButton (state.y3 ≠ old.y3) (Event.Button (ButtonEvent.Y3 ⟨state.y3⟩)) ++
      diffButton (state.mouse_click ≠ old.mouse_click)
        (Event.Button (ButtonEvent.MouseClick ⟨state.mouse_click⟩)) ++
      diffButton (state.thumb_l ≠ old.thumb_l)
        (Event.Button (ButtonEvent.ThumbL ⟨state.thumb_l⟩)) ++
      diffButton (state.thumb_r ≠ old.thumb_r)
        (Event.Button (ButtonEvent.ThumbR ⟨state.thumb_r⟩)) ++
      diffButton (state.touch_x ≠ old.touch_x ∨ state.touch_y ≠ old.touch_y)
        (Event.Axis (AxisEvent.Touchpad ⟨state.touch_x, state.touch_y⟩)) ++
      diffButton (state.l_stick_x ≠ old.l_stick_x ∨ state.l_stick_y ≠ old.l_stick_y)
        (Event.Axis (AxisEvent.LStick ⟨state.l_stick_x, state.l_stick_y⟩)) ++
      diffButton (state.r_stick_x ≠ old.r_stick_x ∨ state.r_stick_y ≠ old.r_stick_y)
        (Event.Axis (AxisEvent.RStick ⟨state.r_stick_x, state.r_stick_y⟩)) ++
      diffButton (state.a_trigger_l ≠ old.a_trigger_l)
        (Event.Trigger (TriggerEvent.ATriggerL ⟨state.a_trigger_l⟩)) ++
      diffButton (state.a_trigger_r ≠ old.a_trigger_r)
        (Event.Trigger (TriggerEvent.ATriggerR ⟨state.a_trigger_r⟩)) ++
      diffButton (state.mouse_z ≠ old.mouse_z)
        (Event.Trigger (TriggerEvent.MouseWheel ⟨state.mouse_z⟩)) ++
      [Event.Accelerometer (AccelerometerEvent.LeftAccelerometer
        ⟨state.left_accel_0, state.left_accel_1⟩)] ++
      [Event.Accelerometer (AccelerometerEvent.RightAccelerometer
        ⟨state.right_accel_0, state.right_accel_1⟩)]

/-! ## Update and handle functions (`driver.rs` lines 177-424)

Each `update_*_state` swaps the new report into its slot and hands back the
previously stored one; each `handle_*_report` unpacks, updates, translates. -/

/-- Modelled from the spec: the `unpack` implementations live in
`hid_report.rs`, which is not under `src/`; decode is pure unpacking of a
size-validated buffer, so each unpacker is an arbitrary total function from
the sliced bytes to the family's decoded report. -/
structure Decoders where
  unpackDInputL : List Nat → DInputDataLeftReport
  unpackDInputR : List Nat → DInputDataRightReport
  unpackKeyboard : List Nat → KeyboardDataReport
  unpackMouse : List Nat → MouseDataReport
  unpackTouchpad : List Nat → TouchpadDataReport
  unpackXInput : List Nat → XInputDataReport

def update_dinputl_state (s : DriverState) (input_report : DInputDataLeftReport) :
    Option DInputDataLeftReport × DriverState :=
  (s.dinputl_state, { s with dinputl_state := some input_report })

def update_dinputr_state (s : DriverState) (input_report : DInputDataRightReport) :
    Option DInputDataRightReport × DriverState :=
  (s.dinputr_state, { s with dinputr_state := some input_report })

def update_keyboard_state (s : DriverState) (input_report : KeyboardDataReport) :
    Option KeyboardDataReport × DriverState :=
  (s.keyboard_state, { s with keyboard_state := some input_report })

def update_mouseinput_state (s : DriverState) (input_report : MouseDataReport) :
    Option MouseDataReport × DriverState :=
  (s.mouse_state, { s with mouse_state := some input_report })

def update_touchpad_state (s : DriverState) (input_report : TouchpadDataReport) :
    Option TouchpadDataReport × DriverState :=
  (s.touchpad_state, { s with touchpad_state := some input_report })

def update_xinput_state (s : DriverState) (input_report : XInputDataReport) :
    Option XInputDataReport × DriverState :=
  (s.xinput_state, { s with xinput_state := some input_report })

def handle_dinputl_report (d : Decoders) (s : DriverState) (buf : List Nat) :
    DriverState × List Event :=
  let input_report := d.unpackDInputL buf
  let u := update_dinputl_state s input_report
  (u.2, translate_dinputl u.2.dinputl_state u.1)

def handle_dinputr_report (d : Decoders) (s : DriverState) (buf : List Nat) :
    DriverState × List Event :=
  let input_report := d.unpackDInputR buf
  let u := update_dinputr_state s input_report
  (u.2, translate_dinputr u.2.dinputr_state u.1)

def handle_keyboard_report (d : Decoders) (s : DriverState) (buf : List Nat) :
    DriverState × List Event :=
  let input_report := d.unpackKeyboard buf
  let u := update_keyboard_state s input_report
  (u.2, translate_keyboard u.2.keyboard_state u.1)

def handle_mouseinput_report (d : Decoders) (s : DriverState) (buf : List Nat) :
    DriverState × List Event :=
  let input_report := d.unpackMouse buf
  let u := update_mouseinput_state s input_report
  (u.2, translate_mouse u.2.mouse_state u.1)

def handle_touchinput_report (d : Decoders) (s : DriverState) (buf : List Nat) :
    DriverState × List Event :=
  let input_report := d.unpackTouchpad buf
  let u := update_touchpad_state s input_report
  (u.2, translate_touch u.2.touchpad_state u.1)

def handle_xinput_report (d : Decoders) (s : DriverState) (buf : List Nat) :
    DriverState × List Event :=
  let input_report := d.unpackXInput buf
  let u := update_xinput_state s input_report
  (u.2, translate_xinput u.2.xinput_state u.1)

/-! ## `poll` (`driver.rs` lines 102-176)

The outcome of one poll on an already-read buffer. `buf` is the 60-byte read
buffer (`[0; XINPUT_PACKET_SIZE]`, zero-filled past `bytes_read`), and
`bytes_read` the transport's return value. `panic` models the Rust slice
indexing `&buf[..report_size]` at line 109, which aborts when the declared
size exceeds the buffer length; it is taken eagerly before the report id is
matched. -/
inductive PollResult where
  | ok (s : DriverState) (events : List Event)
  | error (msg : String)
  | panic
  deriving DecidableEq, Repr

structure RawPacket where
  bytes : List Nat
  bytes_read : Nat
  deriving DecidableEq, Repr

def poll (d : Decoders) (s : DriverState) (p : RawPacket) : PollResult :=
  let buf := p.bytes
  let report_id := buf.getD 0 0
  let report_size := buf.getD 1 0
  if buf.length < report_size then PollResult.panic
  else
    let slice := buf.take report_size
    if report_id = DINPUTLEFT_DATA then
      if report_size ≠ DINPUT_PACKET_SIZE ∨ p.bytes_read ≠ DINPUT_PACKET_SIZE then
        PollResult.error "Invalid packet size for Direct Input Data."
      else
        let (s2, events) := handle_dinputl_report d s slice
        PollResult.ok s2 events
    else if report_id = DINPUTRIGHT_DATA then
      if report_size ≠ DINPUT_PACKET_SIZE ∨ p.bytes_read ≠ DINPUT_PACKET_SIZE then
        PollResult.error "Invalid packet size for Direct Input Data."
      else
        let (s2, events) := handle_dinputr_report d s slice
        PollResult.ok s2 events
    else if report_id = KEYBOARD_TOUCH_DATA then
      if report_size ≠ KEYBOARD_PACKET_SIZE ∨ p.bytes_read ≠ KEYBOARD_PACKET_SIZE then
        if report_size ≠ TOUCHPAD_PACKET_SIZE ∨ p.bytes_read ≠ TOUCHPAD_PACKET_SIZE then
          PollResult.error "Invalid packet size for Keyboard or Touchpad Data."
        else
          let (s2, events) := handle_touchinput_report d s slice
          PollResult.ok s2 events
      else
        let (s2, events) := handle_keyboard_report d s slice
        PollResult.ok s2 events
    else if report_id = MOUSE_DATA ∨ report_id = MOUSEFPS_DATA then
      if report_size ≠ MOUSE_PACKET_SIZE ∨ p.bytes_read ≠ MOUSE_PACKET_SIZE then
        PollResult.error "Invalid packet size for Mouse Data."
      else
        let (s2, events) := handle_mouseinput_report d s slice
        PollResult.ok s2 events
    else if report_id = XINPUT_DATA then
      if report_size ≠ XINPUT_PACKET_SIZE ∨ p.bytes_read ≠ XINPUT_PACKET_SIZE then
        PollResult.error "Invalid packet size for X-Input Data."
      else
        let (s2, events) := handle_xinput_report d s slice
        PollResult.ok s2 events
    else
      PollResult.ok s []

/-- The polling loop's view of one poll: decode-level failures contribute zero
events and the caller retains its previous state (§7 of the spec: decode
errors never abort the loop). -/
def runPoll (d : Decoders) (s : DriverState) (p : RawPacket) : DriverState × List Event :=
  match poll d s p with
  | PollResult.ok s2 events => (s2, events)
  | _ => (s, [])

/-- A recognized report id whose declared size byte or transport byte count
does not match the expected packet size of any family carried by that id. -/
def recognizedSizeMismatch (p : RawPacket) : Prop :=
  let report_id := p.bytes.getD 0 0
  let report_size := p.bytes.getD 1 0
  ((report_id = DINPUTLEFT_DATA ∨ report_id = DINPUTRIGHT_DATA) ∧
    ¬(report_size = DINPUT_PACKET_SIZE ∧ p.bytes_read = DINPUT_PACKET_SIZE)) ∨
  (report_id = KEYBOARD_TOUCH_DATA ∧
    ¬(report_size = KEYBOARD_PACKET_SIZE ∧ p.bytes_read = KEYBOARD_PACKET_SIZE) ∧
    ¬(report_size = TOUCHPAD_PACKET_SIZE ∧ p.bytes_read = TOUCHPAD_PACKET_SIZE)) ∨
  ((report_id = MOUSE_DATA ∨ report_id = MOUSEFPS_DATA) ∧
    ¬(report_size = MOUSE_PACKET_SIZE ∧ p.bytes_read = MOUSE_PACKET_SIZE)) ∨
  (report_id = XINPUT_DATA ∧
    ¬(report_size = XINPUT_PACKET_SIZE ∧ p.bytes_read = XINPUT_PACKET_SIZE))

instance (p : RawPacket) : Decidable (recognizedSizeMismatch p) := by
  unfold recognizedSizeMismatch; infer_instance

end Lego

/-! ## Shared input value type (`src/input/event/value.rs`) -/

/-- Modelled from the spec: `input/event/value.rs` is not under `src/`; the
variants below are the ones constructed and matched in `dbus.rs` and
`opineo.rs` (a boolean, a float, and the five-field touch payload whose
normalized coordinates are optional). -/
inductive InputValue where
  | Bool (value : Bool)
  | Float (value : ℚ)
  | Touch (index : Nat) (is_touching : Bool) (pressure : Option ℚ)
      (x : Option ℚ) (y : Option ℚ)
  deriving DecidableEq, Repr

namespace DBus

/-! ## Hysteresis adapter (`src/input/target/dbus.rs`) -/

def AXIS_THRESHOLD : ℚ := 35 / 100

/-- The dbus action identifiers, as enumerated by `get_capabilities` plus the
`None` action matched in `write_dbus_event`. Modelled from the spec:
`input/event/dbus.rs` is not under `src/`. -/
inductive Action where
  | Guide
  | Quick
  | Quick2
  | Context
  | Option
  | Select
  | Accept
  | Back
  | ActOn
  | Left
  | Right
  | Up
  | Down
  | L1
  | L2
  | L3
  | R1
  | R2
  | R3
  | VolumeUp
  | VolumeDown
  | VolumeMute
  | Keyboard
  | Screenshot
  | Touch
  | None
  deriving DecidableEq, Repr

/-- Modelled from the spec: `input/event/dbus.rs` is not under `src/`; a dbus
event carries its action and the analog magnitude that `as_f64` reads, and
the adapter overwrites that value with the synthetic `0.0` / `1.0` floats. -/
structure DBusEvent where
  action : Action
  value : ℚ
  deriving DecidableEq, Repr

/-- The internal emulated device state for tracking analog input. -/
structure State where
  pressed_left : Bool
  pressed_right : Bool
  pressed_up : Bool
  pressed_down : Bool
  deriving DecidableEq, Repr, Inhabited

/-- The per-event body of the loop in `translate_event` (`dbus.rs` lines
174-232): decide whether to include the event, overwrite its value with the
synthetic digital float, and update the per-direction pressed flags. -/
def axis_step (st : State) (event : DBusEvent) : Option DBusEvent × State :=
  match event.action with
  | Action.Left =>
    if st.pressed_left ∧ event.value < AXIS_THRESHOLD then
      (some { event with value := 0 }, { st with pressed_left := false })
    else if ¬st.pressed_left ∧ event.value > AXIS_THRESHOLD then
      (some { event with value := 1 }, { st with pressed_left := true })
    else
      (none, st)
  | Action.Right =>
    if st.pressed_right ∧ event.value < AXIS_THRESHOLD then
      (some { event with value := 0 }, { st with pressed_right := false })
    else if ¬st.pressed_right ∧ event.value > AXIS_THRESHOLD then
      (some { event with value := 1 }, { st with pressed_right := true })
    else
      (none, st)
  | Action.Up =>
    if st.pressed_up ∧ event.value < AXIS_THRESHOLD then
      (some { event with value := 0 }, { st with pressed_up := false })
    else if ¬st.pressed_up ∧ event.value > AXIS_THRESHOLD then
      (some { event with value := 1 }, { st with pressed_up := true })
    else
      (none, st)
  | Action.Down =>
    if st.pressed_down ∧ event.value < AXIS_THRESHOLD then
      (some { event with value := 0 }, { st with pressed_down := false })
    else if ¬st.pressed_down ∧ event.value > AXIS_THRESHOLD then
      (some { event with value := 1 }, { st with pressed_down := true })
    else
      (none, st)
  | _ => (some event, st)

/-- `translate_event` (`dbus.rs` lines 154-236) over the dbus events produced
from one native event: non-axis events pass through unmodified; axis events
run the per-direction threshold state machine. -/
def translate_event (st : State) (is_axis_event : Bool) :
    List DBusEvent → List DBusEvent × State
  | [] => ([], st)
  | event :: rest =>
    if ¬is_axis_event then
      let (tl, st2) := translate_event st is_axis_event rest
      (event :: tl, st2)
    else
      match axis_step st event with
      | (some ev, st1) =>
        let (tl, st2) := translate_event st1 is_axis_event rest
        (ev :: tl, st2)
      | (none, st1) => translate_event st1 is_axis_event rest

/-- The pressed flag of the given direction (statement helper). -/
def dirPressed (st : State) : Action → Bool
  | Action.Left => st.pressed_left
  | Action.Right => st.pressed_right
  | Action.Up => st.pressed_up
  | Action.Down => st.pressed_down
  | _ => false

/-- Overwrite the pressed flag of the given direction (statement helper). -/
def setDir (st : State) (a : Action) (b : Bool) : State :=
  match a with
  | Action.Left => { st with pressed_left := b }
  | Action.Right => { st with pressed_right := b }
  | Action.Up => { st with pressed_up := b }
  | Action.Down => { st with pressed_down := b }
  | _ => st

end DBus

namespace Opineo

/-! ## Touchpad normalization (`src/input/source/hidraw/opineo.rs`) -/

/-- Modelled from the spec: `drivers/opineo/driver.rs` is not under `src/`;
the pad axis domain is `0.0 .. 1024.0` for both X and Y (the same values as
the lego profile constants cited by the spec). -/
def PAD_X_MAX : ℚ := 1024

def PAD_Y_MAX : ℚ := 1024

/-- Modelled from the spec: `drivers/opineo/event.rs` is not under `src/`;
the touch axis event carries the contact index, the `is_touching` flag and
the raw unsigned pad coordinates. -/
structure TouchAxisInput where
  index : Nat
  is_touching : Bool
  x : Nat
  y : Nat
  deriving DecidableEq, Repr

/-- Returns a value between 0.0 and 1.0 based on the given value with its
maximum (`opineo.rs` lines 83-85). -/
def normalize_unsigned_value (raw_value mx : ℚ) : ℚ :=
  raw_value / mx

/-- `normalize_axis_value` (`opineo.rs` lines 89-110): normalize both pad
coordinates; when the event is not touching, report the X/Y outputs as
absent. -/
def normalize_axis_value (event : TouchAxisInput) : InputValue :=
  let x := normalize_unsigned_value (event.x : ℚ) PAD_X_MAX
  let y := normalize_unsigned_value (event.y : ℚ) PAD_Y_MAX
  let pos := if ¬event.is_touching then ((none : Option ℚ), (none : Option ℚ))
    else (some x, some y)
  InputValue.Touch event.index event.is_touching (some 1) pos.1 pos.2

/-- The spec's unipolar normalization, written from the spec's words for the
refinement claim: `normalized = (raw - min) / (max - min)`, clamped to
`[0.0, 1.0]`. -/
def spec_normalize_unipolar (raw mn mx : ℚ) : ℚ :=
  max 0 (min 1 ((raw - mn) / (mx - mn)))

end Opineo

namespace Lego

/-! ## Concrete instances for witnesses and counterexamples -/

/-- The all-zero XInput report. -/
def sampleXInputReport : XInputDataReport :=
  { a := false, x := false, b := false, y := false, menu := false, view := false,
    legion := false, quick_access := false, down := false, up := false, left := false,
    right := false, lb := false, rb := false, d_trigger_l := false, d_trigger_r := false,
    m2 := false, m3 := false, y1 := false, y2 := false, y3 := false, mouse_click := false,
    thumb_l := false, thumb_r := false, touch_x := 0, touch_y := 0, l_stick_x := 0,
    l_stick_y := 0, r_stick_x := 0, r_stick_y := 0, a_trigger_l := 0, a_trigger_r := 0,
    mouse_z := 0, left_accel_0 := 0, left_accel_1 := 0, right_accel_0 := 0,
    right_accel_1 := 0 }

/-- The fresh driver state: every per-family slot `None`. -/
def exampleState : DriverState := ⟨none, none, none, none, none, none⟩

/-- Concrete decoders used to instantiate the universally quantified unpack
functions in witnesses. -/
def defaultDecoders : Decoders :=
  { unpackDInputL := fun _ => ⟨[]⟩
    unpackDInputR := fun _ => ⟨[]⟩
    unpackKeyboard := fun _ => ⟨[]⟩
    unpackMouse := fun _ => ⟨[]⟩
    unpackTouchpad := fun _ => ⟨[]⟩
    unpackXInput := fun _ => sampleXInputReport }

/-- Zero-fill a buffer to the 60-byte read buffer size, as `read_timeout`
leaves the unread tail of `[0; XINPUT_PACKET_SIZE]`. -/
def mkBuf (hd : List Nat) : List Nat :=
  hd ++ List.replicate (XINPUT_PACKET_SIZE - hd.length) 0

/-- Whether a poll outcome is the error outcome (statement helper). -/
def isErrorResult : PollResult → Bool
  | PollResult.error _ => true
  | _ => false

/-- Event discriminators for the paired-axis claims (statement helpers). -/
def isTouchpadAxisEvent : Event → Bool
  | Event.Axis (AxisEvent.Touchpad _) => true
  | _ => false

def isLStickAxisEvent : Event → Bool
  | Event.Axis (AxisEvent.LStick _) => true
  | _ => false

def isRStickAxisEvent : Event → Bool
  | Event.Axis (AxisEvent.RStick _) => true
  | _ => false

/-- A recognized XInput packet whose declared size byte 61 exceeds the
60-byte read buffer. -/
def oversizedXInputPacket : RawPacket := ⟨mkBuf [4, 61], 61⟩

/-- A keyboard/touchpad packet whose declared size byte 61 exceeds the
60-byte read buffer. -/
def oversizedKeyboardPacket : RawPacket := ⟨mkBuf [1, 61], 61⟩

/-- An unrecognized-id packet whose declared size byte 61 exceeds the
60-byte read buffer. -/
def oversizedUnknownPacket : RawPacket := ⟨mkBuf [5, 61], 61⟩

end Lego


/-! ## Theorems -/

namespace Lego

theorem translate_dinputl_eq_nil (st old : Option DInputDataLeftReport) :
    translate_dinputl st old = [] := by
  cases st <;> cases old <;> rfl

theorem translate_dinputr_eq_nil (st old : Option DInputDataRightReport) :
    translate_dinputr st old = [] := by
  cases st <;> cases old <;> rfl

theorem translate_keyboard_eq_nil (st old : Option KeyboardDataReport) :
    translate_keyboard st old = [] := by
  cases st <;> cases old <;> rfl

theorem translate_mouse_eq_nil (st old : Option MouseDataReport) :
    translate_mouse st old = [] := by
  cases st <;> cases old <;> rfl

theorem translate_touch_eq_nil (st old : Option TouchpadDataReport) :
    translate_touch st old = [] := by
  cases st <;> cases old <;> rfl

/-- C1: counterexample — feeding the same decoded XInput report twice does
not yield an empty event list on the second call: the two accelerometer
samples are pushed unconditionally inside the diff block
(`driver.rs` lines 594-606). -/
theorem c1_counterexample :
    translate_xinput (some sampleXInputReport) (some sampleXInputReport) ≠ [] := by
  decide

/-- C1 (amended): feeding the same decoded report twice yields, on the second
call, exactly the two accelerometer events and nothing else for the XInput
family, and an empty event list for every other family. -/
theorem c1_amended_repeat_report (r : XInputDataReport) (dl : DInputDataLeftReport)
    (dr : DInputDataRightReport) (kb : KeyboardDataReport) (ms : MouseDataReport)
    (tp : TouchpadDataReport) :
    translate_xinput (some r) (some r) =
      [Event.Accelerometer (AccelerometerEvent.LeftAccelerometer
        ⟨r.left_accel_0, r.left_accel_1⟩),
       Event.Accelerometer (AccelerometerEvent.RightAccelerometer
        ⟨r.right_accel_0, r.right_accel_1⟩)] ∧
    translate_dinputl (some dl) (some dl) = [] ∧
    translate_dinputr (some dr) (some dr) = [] ∧
    translate_keyboard (some kb) (some kb) = [] ∧
    translate_mouse (some ms) (some ms) = [] ∧
    translate_touch (some tp) (some tp) = [] := by
  refine ⟨?_, rfl, rfl, rfl, rfl, rfl⟩
  simp [translate_xinput, diffButton]

/-- C8: counterexample — on the first successful decode of the XInput family
(state slot previously `None`), translate emits no events at all, in
particular no accelerometer samples, contradicting the claim's always-emit
exception. -/
theorem c8_counterexample :
    translate_xinput (some sampleXInputReport) none = [] := rfl

/-- C8 (amended): on the first successful decode of a family, translate
emits no events whatsoever — no change events for equality-gated fields and,
unlike the claim's exception, no accelerometer events either, because the
unconditional accelerometer pushes sit inside the `if let Some(old_state)`
block. -/
theorem c8_amended_first_decode (r : XInputDataReport) :
    translate_xinput (some r) none = [] := rfl

end Lego

namespace Lego

/-- C10: the DInput-left, DInput-right, keyboard, mouse and touchpad
translate functions return an empty event vector for every previous/current
state pair, and consequently any successful poll whose report id is not the
XInput id contributes no events. -/
theorem c10_only_xinput_emits (d : Decoders) :
    (∀ st old, translate_dinputl st old = []) ∧
    (∀ st old, translate_dinputr st old = []) ∧
    (∀ st old, translate_keyboard st old = []) ∧
    (∀ st old, translate_mouse st old = []) ∧
    (∀ st old, translate_touch st old = []) ∧
    (∀ s p s2 events, poll d s p = PollResult.ok s2 events →
      p.bytes.getD 0 0 ≠ XINPUT_DATA → events = []) := by
  refine ⟨translate_dinputl_eq_nil, translate_dinputr_eq_nil, translate_keyboard_eq_nil,
    translate_mouse_eq_nil, translate_touch_eq_nil, ?_⟩
  intro s p s2 events h hid
  simp only [poll] at h
  split_ifs at h with h0 h1 h2 h3 h4 h5 h6 h7 h8 h9
  all_goals cases h
  all_goals
    simp [handle_dinputl_report, handle_dinputr_report, handle_keyboard_report,
      handle_mouseinput_report, handle_touchinput_report, translate_dinputl_eq_nil,
      translate_dinputr_eq_nil, translate_keyboard_eq_nil, translate_mouse_eq_nil,
      translate_touch_eq_nil]

/-- C10 witness: a successful poll of an unrecognized-id packet, whose event
list the theorem forces to be empty. -/
theorem c10_only_xinput_emits_witness : ([] : List Event) = [] :=
  (c10_only_xinput_emits defaultDecoders).2.2.2.2.2 exampleState ⟨mkBuf [5, 13], 13⟩
    exampleState [] (by decide) (by decide)

end Lego

namespace Lego

theorem filter_diffButton (f : Event → Bool) (c : Prop) [Decidable c] (ev : Event) :
    (diffButton c ev).filter f = if c then [ev].filter f else [] := by
  by_cases hc : c <;> simp [diffButton, hc]

/-- C6: for each paired axis (touchpad, left stick, right stick), the diff of
two XInput reports contains exactly one combined `Axis` event — carrying both
new components — when either component differs, and no `Axis` event for that
axis when neither differs. -/
theorem c6_paired_axis_atomicity (c p : XInputDataReport) :
    ((translate_xinput (some c) (some p)).filter isTouchpadAxisEvent =
      if c.touch_x ≠ p.touch_x ∨ c.touch_y ≠ p.touch_y then
        [Event.Axis (AxisEvent.Touchpad ⟨c.touch_x, c.touch_y⟩)] else []) ∧
    ((translate_xinput (some c) (some p)).filter isLStickAxisEvent =
      if c.l_stick_x ≠ p.l_stick_x ∨ c.l_stick_y ≠ p.l_stick_y then
        [Event.Axis (AxisEvent.LStick ⟨c.l_stick_x, c.l_stick_y⟩)] else []) ∧
    ((translate_xinput (some c) (some p)).filter isRStickAxisEvent =
      if c.r_stick_x ≠ p.r_stick_x ∨ c.r_stick_y ≠ p.r_stick_y then
        [Event.Axis (AxisEvent.RStick ⟨c.r_stick_x, c.r_stick_y⟩)] else []) := by
  refine ⟨?_, ?_, ?_⟩
  · simp only [translate_xinput, List.filter_append, filter_diffButton,
      List.filter_cons, List.filter_nil, List.nil_append, List.append_nil]
    simp [isTouchpadAxisEvent]
  · simp only [translate_xinput, List.filter_append, filter_diffButton,
      List.filter_cons, List.filter_nil, List.nil_append, List.append_nil]
    simp [isLStickAxisEvent]
  · simp only [translate_xinput, List.filter_append, filter_diffButton,
      List.filter_cons, List.filter_nil, List.nil_append, List.append_nil]
    simp [isRStickAxisEvent]

end Lego

namespace Opineo

/-- C5: when `is_touching` is false the translated touch value carries absent
normalized X/Y regardless of the raw coordinates; when `is_touching` is true
both normalized coordinates are present. -/
theorem c5_touch_absence (event : TouchAxisInput) :
    (event.is_touching = false →
      normalize_axis_value event =
        InputValue.Touch event.index false (some 1) none none) ∧
    (event.is_touching = true →
      normalize_axis_value event =
        InputValue.Touch event.index true (some 1)
          (some ((event.x : ℚ) / PAD_X_MAX)) (some ((event.y : ℚ) / PAD_Y_MAX))) := by
  constructor <;> intro h <;>
    simp [normalize_axis_value, normalize_unsigned_value, h]

/-- C5 witness: a non-touching event at raw coordinates `(0, 0)` still
reports both normalized outputs as absent. -/
theorem c5_touch_absence_witness :
    normalize_axis_value ⟨3, false, 0, 0⟩ =
      InputValue.Touch 3 false (some 1) none none :=
  (c5_touch_absence ⟨3, false, 0, 0⟩).1 rfl

/-- C4: over the pad domain `0 .. 1024`, the code's unsigned normalization
agrees with the spec's clamped linear map, sends the domain minimum to `0`
and the maximum to `1`, never leaves `[0, 1]`, and is monotone
non-decreasing. -/
theorem c4_normalization (raw : ℚ) (h0 : 0 ≤ raw) (h1 : raw ≤ PAD_X_MAX) :
    normalize_unsigned_value raw PAD_X_MAX = spec_normalize_unipolar raw 0 PAD_X_MAX ∧
    normalize_unsigned_value 0 PAD_X_MAX = 0 ∧
    normalize_unsigned_value PAD_X_MAX PAD_X_MAX = 1 ∧
    0 ≤ normalize_unsigned_value raw PAD_X_MAX ∧
    normalize_unsigned_value raw PAD_X_MAX ≤ 1 ∧
    ∀ raw2, raw ≤ raw2 →
      normalize_unsigned_value raw PAD_X_MAX ≤ normalize_unsigned_value raw2 PAD_X_MAX := by
  have hmax : (0 : ℚ) < PAD_X_MAX := by norm_num [PAD_X_MAX]
  have hge : (0 : ℚ) ≤ raw / PAD_X_MAX := div_nonneg h0 (le_of_lt hmax)
  have hle : raw / PAD_X_MAX ≤ 1 := (div_le_one hmax).mpr h1
  refine ⟨?_, ?_, ?_, hge, hle, ?_⟩
  · unfold normalize_unsigned_value spec_normalize_unipolar
    rw [sub_zero, sub_zero, min_eq_right hle, max_eq_right hge]
  · simp [normalize_unsigned_value]
  · simp [normalize_unsigned_value, PAD_X_MAX]
  · intro raw2 h2
    unfold normalize_unsigned_value
    exact div_le_div_of_nonneg_right h2 (le_of_lt hmax)

/-- C4 witness: the mid-domain raw value `512` normalizes identically under
the code's map and the spec's clamped map. -/
theorem c4_normalization_witness :
    normalize_unsigned_value 512 PAD_X_MAX = spec_normalize_unipolar 512 0 PAD_X_MAX :=
  (c4_normalization 512 (by norm_num) (by norm_num [PAD_X_MAX])).1

end Opineo

namespace DBus

/-- C2: for each axis-derived direction with threshold `0.35`: in the
released state a sample strictly above the threshold emits exactly one
digital event with value `1.0` and marks the direction pressed; in the
pressed state a sample strictly below the threshold emits exactly one event
with value `0.0` and marks it released; any other sample — including one
exactly at the threshold — emits nothing and leaves the state unchanged. -/
theorem c2_axis_threshold (st : State) (a : Action) (v : ℚ)
    (ha : a = Action.Left ∨ a = Action.Right ∨ a = Action.Up ∨ a = Action.Down) :
    (dirPressed st a = false → AXIS_THRESHOLD < v →
      translate_event st true [⟨a, v⟩] = ([⟨a, 1⟩], setDir st a true)) ∧
    (dirPressed st a = true → v < AXIS_THRESHOLD →
      translate_event st true [⟨a, v⟩] = ([⟨a, 0⟩], setDir st a false)) ∧
    ((dirPressed st a = false ∧ v ≤ AXIS_THRESHOLD) ∨
        (dirPressed st a = true ∧ AXIS_THRESHOLD ≤ v) →
      translate_event st true [⟨a, v⟩] = ([], st)) := by
  rcases ha with rfl | rfl | rfl | rfl
  all_goals refine ⟨fun h1 h2 => ?_, fun h1 h2 => ?_, fun h12 => ?_⟩
  all_goals try rcases h12 with ⟨h1, h2⟩ | ⟨h1, h2⟩
  all_goals simp only [dirPressed] at h1
  all_goals first
    | (simp [translate_event, axis_step, h1, h2, setDir]; done)
    | (simp [translate_event, axis_step, h1, not_lt.mpr h2, setDir]; done)

/-- C2 witness: from the all-released state, a left-direction sample of
magnitude `0.5` emits the single synthetic press event with value `1.0` and
sets the left direction pressed. -/
theorem c2_axis_threshold_witness :
    translate_event ⟨false, false, false, false⟩ true [⟨Action.Left, 1/2⟩] =
      ([⟨Action.Left, 1⟩], ⟨true, false, false, false⟩) :=
  (c2_axis_threshold ⟨false, false, false, false⟩ Action.Left (1/2)
    (Or.inl rfl)).1 rfl (by norm_num [AXIS_THRESHOLD])

end DBus

namespace Lego

/-- Supporting lemma: when the declared size fits the read buffer, a
recognized report id whose declared size or byte count mismatches the
expected packet size makes `poll` return the MalformedPacket-style error,
the polling loop keeps its state and gets zero events, and any subsequent
poll behaves as if the malformed poll had never occurred. -/
theorem poll_mismatch_error_of_fits (d : Decoders) (s : DriverState) (p : RawPacket)
    (hfit : p.bytes.getD 1 0 ≤ p.bytes.length)
    (hmis : recognizedSizeMismatch p) :
    (∃ msg, poll d s p = PollResult.error msg) ∧
    runPoll d s p = (s, []) ∧
    ∀ q, runPoll d (runPoll d s p).1 q = runPoll d s q := by
  have hfit2 : ¬ p.bytes.length < p.bytes.getD 1 0 := not_lt.mpr hfit
  have hm := hmis
  simp only [recognizedSizeMismatch, DINPUTLEFT_DATA, DINPUTRIGHT_DATA,
    KEYBOARD_TOUCH_DATA, MOUSEFPS_DATA, MOUSE_DATA, XINPUT_DATA, DINPUT_PACKET_SIZE,
    XINPUT_PACKET_SIZE, KEYBOARD_PACKET_SIZE, MOUSE_PACKET_SIZE,
    TOUCHPAD_PACKET_SIZE] at hm
  have herr : ∃ msg, poll d s p = PollResult.error msg := by
    simp only [poll, DINPUTLEFT_DATA, DINPUTRIGHT_DATA, KEYBOARD_TOUCH_DATA,
      MOUSEFPS_DATA, MOUSE_DATA, XINPUT_DATA, DINPUT_PACKET_SIZE, XINPUT_PACKET_SIZE,
      KEYBOARD_PACKET_SIZE, MOUSE_PACKET_SIZE, TOUCHPAD_PACKET_SIZE]
    split_ifs <;> first | exact ⟨_, rfl⟩ | omega
  obtain ⟨msg, hmsg⟩ := herr
  have hrun : runPoll d s p = (s, []) := by simp [runPoll, hmsg]
  refine ⟨⟨msg, hmsg⟩, hrun, ?_⟩
  intro q
  rw [hrun]

/-- Supporting lemma: when the declared size fits the read buffer, a packet
with an unrecognized report id polls successfully with an empty event list
and an unchanged driver state. -/
theorem poll_unrecognized_ok_of_fits (d : Decoders) (s : DriverState) (p : RawPacket)
    (hfit : p.bytes.getD 1 0 ≤ p.bytes.length)
    (h7 : p.bytes.getD 0 0 ≠ DINPUTLEFT_DATA)
    (h8 : p.bytes.getD 0 0 ≠ DINPUTRIGHT_DATA)
    (h1 : p.bytes.getD 0 0 ≠ KEYBOARD_TOUCH_DATA)
    (h2 : p.bytes.getD 0 0 ≠ MOUSEFPS_DATA)
    (h9 : p.bytes.getD 0 0 ≠ MOUSE_DATA)
    (h4 : p.bytes.getD 0 0 ≠ XINPUT_DATA) :
    poll d s p = PollResult.ok s [] := by
  have hfit2 : ¬ p.bytes.length < p.bytes.getD 1 0 := not_lt.mpr hfit
  simp only [poll]
  split_ifs <;> first | rfl | omega

/-- Supporting lemma: on the shared keyboard/touchpad report id, and with a
declared size that fits the read buffer, the declared-size field selects the
decoder — both 15 decodes a keyboard report, otherwise both 21 decodes a
touchpad report, otherwise `poll` fails with the MalformedPacket-style
error. -/
theorem poll_keyboard_touch_dispatch (d : Decoders) (s : DriverState) (p : RawPacket)
    (hid : p.bytes.getD 0 0 = KEYBOARD_TOUCH_DATA)
    (hfit : p.bytes.getD 1 0 ≤ p.bytes.length) :
    (p.bytes.getD 1 0 = KEYBOARD_PACKET_SIZE ∧ p.bytes_read = KEYBOARD_PACKET_SIZE →
      poll d s p = PollResult.ok
        { s with
          keyboard_state := some (d.unpackKeyboard (p.bytes.take KEYBOARD_PACKET_SIZE)) }
        []) ∧
    (¬(p.bytes.getD 1 0 = KEYBOARD_PACKET_SIZE ∧ p.bytes_read = KEYBOARD_PACKET_SIZE) →
      p.bytes.getD 1 0 = TOUCHPAD_PACKET_SIZE ∧ p.bytes_read = TOUCHPAD_PACKET_SIZE →
      poll d s p = PollResult.ok
        { s with
          touchpad_state := some (d.unpackTouchpad (p.bytes.take TOUCHPAD_PACKET_SIZE)) }
        []) ∧
    (¬(p.bytes.getD 1 0 = KEYBOARD_PACKET_SIZE ∧ p.bytes_read = KEYBOARD_PACKET_SIZE) →
      ¬(p.bytes.getD 1 0 = TOUCHPAD_PACKET_SIZE ∧ p.bytes_read = TOUCHPAD_PACKET_SIZE) →
      ∃ msg, poll d s p = PollResult.error msg) := by
  have hfit2 : ¬ p.bytes.length < p.bytes.getD 1 0 := not_lt.mpr hfit
  refine ⟨?_, ?_, ?_⟩
  · intro hk
    simp only [poll, DINPUTLEFT_DATA, DINPUTRIGHT_DATA, KEYBOARD_TOUCH_DATA,
      MOUSEFPS_DATA, MOUSE_DATA, XINPUT_DATA, DINPUT_PACKET_SIZE, XINPUT_PACKET_SIZE,
      KEYBOARD_PACKET_SIZE, MOUSE_PACKET_SIZE, TOUCHPAD_PACKET_SIZE] at hid hk ⊢
    split_ifs <;> try omega
    rw [hk.1]
    simp [handle_keyboard_report, update_keyboard_state, translate_keyboard_eq_nil,
      KEYBOARD_PACKET_SIZE]
  · intro hnk ht
    simp only [poll, DINPUTLEFT_DATA, DINPUTRIGHT_DATA, KEYBOARD_TOUCH_DATA,
      MOUSEFPS_DATA, MOUSE_DATA, XINPUT_DATA, DINPUT_PACKET_SIZE, XINPUT_PACKET_SIZE,
      KEYBOARD_PACKET_SIZE, MOUSE_PACKET_SIZE, TOUCHPAD_PACKET_SIZE] at hid hnk ht ⊢
    split_ifs <;> try omega
    rw [ht.1]
    simp [handle_touchinput_report, update_touchpad_state, translate_touch_eq_nil,
      TOUCHPAD_PACKET_SIZE]
  · intro hnk hnt
    simp only [poll, DINPUTLEFT_DATA, DINPUTRIGHT_DATA, KEYBOARD_TOUCH_DATA,
      MOUSEFPS_DATA, MOUSE_DATA, XINPUT_DATA, DINPUT_PACKET_SIZE, XINPUT_PACKET_SIZE,
      KEYBOARD_PACKET_SIZE, MOUSE_PACKET_SIZE, TOUCHPAD_PACKET_SIZE] at hid hnk hnt ⊢
    split_ifs <;> first | exact ⟨_, rfl⟩ | omega

/-- C3: evaluation at the failing input — the packet `[0x04, 61, 0, ...]`
with 61 bytes read has the recognized XInput report id and a size mismatch,
so the claim requires `poll` to fail with a MalformedPacket-style error; the
eager slice `&buf[..report_size]` taken at line 109 before any size
validation aborts instead of returning an error. -/
theorem c3_failing_eval :
    recognizedSizeMismatch oversizedXInputPacket ∧
    poll defaultDecoders exampleState oversizedXInputPacket = PollResult.panic ∧
    isErrorResult (poll defaultDecoders exampleState oversizedXInputPacket) = false := by
  decide

/-- C7: evaluation at the failing input — the packet `[0x01, 61, 0, ...]`
carries the shared keyboard/touchpad report id with a declared size that is
neither 15 nor 21, so the claim requires the MalformedPacket error; the
eager slice taken at line 109 aborts instead. -/
theorem c7_failing_eval :
    oversizedKeyboardPacket.bytes.getD 0 0 = KEYBOARD_TOUCH_DATA ∧
    poll defaultDecoders exampleState oversizedKeyboardPacket = PollResult.panic ∧
    isErrorResult (poll defaultDecoders exampleState oversizedKeyboardPacket) = false := by
  decide

/-- C9: evaluation at the failing input — the packet `[0x05, 61, 0, ...]`
has an unrecognized report id (5), so the claim requires `poll` to succeed
with an empty event list; the eager slice taken at line 109, before the
report id is matched, aborts instead. -/
theorem c9_failing_eval :
    oversizedUnknownPacket.bytes.getD 0 0 ∉
      ([DINPUTLEFT_DATA, DINPUTRIGHT_DATA, KEYBOARD_TOUCH_DATA, MOUSEFPS_DATA,
        MOUSE_DATA, XINPUT_DATA] : List Nat) ∧
    poll defaultDecoders exampleState oversizedUnknownPacket = PollResult.panic := by
  decide

end Lego
